import Mathlib

/-!
Verification of the biometric verification server's decision core
(`src/server` of djdiptayan1/biometrics_project) against its
natural-language specification.

The decision logic is shallowly embedded: Python floats are modelled as
rationals where the computation is exact, association lists model Python
dicts (which preserve insertion order and keep keys unique), and raised
Python exceptions are modelled by an `Except` error channel.
-/

namespace Biometrics

/-- A raised Python exception.  The code under `src/server` defines no
structured error values of its own, so the only failure channel of the
scoring pipeline is a raised builtin exception; `valueError` models
Python's `ValueError` (raised by `np.dot` / `scipy.spatial.distance.cosine`
on mismatched 1-D shapes and by `max()` on an empty sequence). -/
inductive PyError where
  | valueError
deriving DecidableEq, Repr

deriving instance DecidableEq for Except

/-- An IEEE floating-point result of the cosine quotient
`dot / (norm(a) * norm(b))`.  When the denominator is nonzero the exact
value is `num / Real.sqrt denSq`, represented exactly by the pair
`finite num denSq` with `denSq = normSq a * normSq b ≠ 0`.  When the
denominator is zero, IEEE division produces a non-finite value (NaN here,
since a zero norm forces the numerator to be zero as well), represented by
`nonfinite`. -/
inductive FloatVal where
  | finite (num : ℚ) (denSq : ℚ)
  | nonfinite
deriving DecidableEq, Repr

/-- Dot product of two 1-D vectors of equal length. -/
def dot (a b : List ℚ) : ℚ := (List.zipWith (· * ·) a b).sum

/-- Squared Euclidean norm, `np.linalg.norm(a) ** 2`.  Over the rationals
`norm(a) = 0` exactly when `normSq a = 0`, which is all the zero-norm
analysis below needs. -/
def normSq (a : List ℚ) : ℚ := dot a a

/-- Embeds `FaceAuthService.cosine_similarity` and the identical
`VoiceAuthService.cosine_similarity`
(`src/server/services/face_auth_service.py` line 22-23):
`np.dot(a, b) / (np.linalg.norm(a) * np.linalg.norm(b))`.
`np.dot` raises `ValueError` on mismatched 1-D shapes; otherwise the float
division is performed unconditionally — the denominator
`norm(a) * norm(b) = Real.sqrt (normSq a * normSq b)` is zero exactly when
`normSq a * normSq b = 0`, and then the IEEE quotient is non-finite. -/
def cosine_similarity (a b : List ℚ) : Except PyError FloatVal :=
  if a.length = b.length then
    if normSq a * normSq b = 0 then .ok .nonfinite
    else .ok (.finite (dot a b) (normSq a * normSq b))
  else .error .valueError

/-- Embeds Python's `str(name).lower()` as applied to identity names:
the ASCII case mapping, character by character (the enrolled names in this
repository are ASCII). -/
def pyLower (s : String) : String :=
  String.mk (s.data.map Char.toLower)

/-- Python dict assignment `d[k] = v` on an insertion-ordered dict:
update in place when the key is already present (keeping its position),
append at the end otherwise. -/
def dictSet (d : List (String × ℚ)) (k : String) (v : ℚ) : List (String × ℚ) :=
  if d.any (fun p => p.1 = k) then d.map (fun p => if p.1 = k then (k, v) else p)
  else d ++ [(k, v)]

/-- Python dict lookup `d[k]`; the embedded callers only apply it to keys
that are present. -/
def dictGet (d : List (String × ℚ)) (k : String) : ℚ :=
  ((d.find? (fun p => p.1 = k)).map Prod.snd).getD 0

/-- The scoring loop of `predict_voice`
(`src/server/voice_verification.py` lines 150-159): for each reference
entry `(name, ref_emb)` of the insertion-ordered reference dict, compute
`key = str(name).lower()` and assign `scores[key] = sim` where
`sim = 1 - scipy cosine distance`.  The float similarity value is
abstracted as a function parameter `simf`, since only the produced keys,
their iteration order and comparisons between the values decide the
properties proved below; the concrete cosine arithmetic is modelled
separately by `cosine_similarity`. -/
def predict_voice_scores (simf : List ℚ → List ℚ → ℚ) (test : List ℚ)
    (refs : List (String × List ℚ)) : List (String × ℚ) :=
  refs.foldl (fun scores p => dictSet scores (pyLower p.1) (simf test p.2)) []

/-- One comparison step of Python's `max` with a key function: the current
best is replaced only when the candidate is strictly greater, so the
first-encountered maximum in iteration order wins ties. -/
def maxStep (best p : String × ℚ) : String × ℚ :=
  if p.2 > best.2 then p else best

/-- Embeds `best = max(scores, key=scores.get)`
(`src/server/voice_verification.py` line 165).  Python's `max` raises
`ValueError` on an empty sequence; on a dict it iterates the keys in
insertion order and keeps the first key attaining the maximal value. -/
def pyMaxKey (scores : List (String × ℚ)) : Except PyError String :=
  match scores with
  | [] => .error .valueError
  | first :: rest => .ok (rest.foldl maxStep first).1

/-- The result dict shape shared by `predict_face` and `predict_voice`:
`{"verified": ..., "person": ..., "confidence": ..., "similarities": ...}`. -/
structure PredictResult where
  verified : Bool
  person : String
  confidence : ℚ
  similarities : List (String × ℚ)
deriving DecidableEq, Repr

/-- Embeds `predict_voice` (`src/server/voice_verification.py` lines
133-177) after the embedding extraction: build the similarity dict, take
the argmax key, and return the result dict.  The source's `verified` field
is literally `True if higher else True`. -/
def predict_voice (simf : List ℚ → List ℚ → ℚ) (test : List ℚ)
    (refs : List (String × List ℚ)) (higher : Bool) : Except PyError PredictResult :=
  match pyMaxKey (predict_voice_scores simf test refs) with
  | .error e => .error e
  | .ok best =>
      .ok { verified := if higher then true else true
            person := best
            confidence := dictGet (predict_voice_scores simf test refs) best
            similarities := predict_voice_scores simf test refs }

/-- Embeds the decision tail of `predict_face`
(`src/server/face_verification.py` lines 70-96), given the two softmax
probabilities `p0` (class 0, "diptayan") and `p1` (class 1, "palash")
produced by the external model: `torch.max` picks the maximal probability
and its index (the first index on a tie), and the similarity dict always
has exactly the two fixed class keys. -/
def predict_face (p0 p1 : ℚ) : PredictResult :=
  { verified := if max p0 p1 > 0 then true else false
    person := if p1 > p0 then "palash" else "diptayan"
    confidence := max p0 p1
    similarities := [("diptayan", p0), ("palash", p1)] }

/-- `FACE_THRESHOLD = 0.65` (`src/server/config.py`). -/
def FACE_THRESHOLD : ℚ := 65 / 100

/-- `VOICE_THRESHOLD = 0.012` (`src/server/config.py`). -/
def VOICE_THRESHOLD : ℚ := 12 / 1000

/-- The `MULTIMODAL_THRESHOLD` dict of `src/server/config.py`. -/
structure ModalThresholds where
  face : ℚ
  voice : ℚ
deriving DecidableEq, Repr

/-- `MULTIMODAL_THRESHOLD = {"face": FACE_THRESHOLD, "voice": VOICE_THRESHOLD}`. -/
def MULTIMODAL_THRESHOLD : ModalThresholds :=
  { face := FACE_THRESHOLD, voice := VOICE_THRESHOLD }

/-- Stable descending insertion used to model Python's stable
`sorted(items, key=value, reverse=True)`. -/
def insertDesc (x : String × ℚ) : List (String × ℚ) → List (String × ℚ)
  | [] => [x]
  | y :: ys => if y.2 > x.2 then y :: insertDesc x ys else x :: y :: ys

/-- `to_results` inside `verify_biometric` (`src/server/app.py` lines
216-219): the similarity items sorted by probability, descending. -/
def to_results (sims : List (String × ℚ)) : List (String × ℚ) :=
  sims.foldr insertDesc []

/-- The JSON response produced by `verify_biometric`
(`src/server/app.py` lines 224-228):
`{"image": {"results": ...}, "audio": {"results": ...},
  "result": {"authenticated": ..., "name": ...}}`.
These are ALL the fields of the response — in particular it carries no
bypass marker of any kind. -/
structure BiometricOutput where
  imageResults : List (String × ℚ)
  audioResults : List (String × ℚ)
  authenticated : Bool
  name : Option String
deriving DecidableEq, Repr

/-- The fusion and response-building logic of `verify_biometric`
(`src/server/app.py` lines 166-229), given the two per-modality prediction
results and the `higher` flag (hardcoded `True` at line 143; `False` is
the strict dual-threshold path of the `else` branch at line 186). -/
def verify_biometric_fuse (face_res voice_res : PredictResult)
    (higher : Bool) : BiometricOutput :=
  let face_verified := decide (face_res.confidence ≥ MULTIMODAL_THRESHOLD.face)
  let voice_verified :=
    if higher then true
    else decide (voice_res.confidence ≥ MULTIMODAL_THRESHOLD.voice)
  let both_verified := face_verified && voice_verified
  let same_person := decide (face_res.person = voice_res.person) && both_verified
  let authenticated := both_verified && same_person
  let auth_name := if authenticated then some face_res.person else none
  { imageResults := to_results face_res.similarities
    audioResults := to_results voice_res.similarities
    authenticated := authenticated
    name := auth_name }

/-- The per-modality decision of the `/verify-face` endpoint
(`src/server/app.py` line 68): `verified = res["confidence"] >= FACE_THRESHOLD`. -/
def verify_face_verified (confidence : ℚ) : Bool :=
  decide (confidence ≥ FACE_THRESHOLD)

/-- The per-modality decision of the `/verify-voice` endpoint
(`src/server/app.py` line 115): `verified = res["confidence"] >= VOICE_THRESHOLD`. -/
def verify_voice_verified (confidence : ℚ) : Bool :=
  decide (confidence ≥ VOICE_THRESHOLD)

/-- The result dict of `FaceAuthService.verify_user`
(`src/server/services/face_auth_service.py` lines 56-61). -/
structure AuthResult where
  success : Bool
  authenticated : Bool
  similarity : ℚ
  result : ℤ
deriving DecidableEq, Repr

/-- Embeds the decision tail of `FaceAuthService.verify_user`
(`src/server/services/face_auth_service.py` lines 46-61), with the cosine
similarity value `sim` already computed (finite case):
`is_authenticated = sim >= threshold`. -/
def FaceAuthService.verify_user (sim threshold : ℚ) : AuthResult :=
  { success := true
    authenticated := decide (sim ≥ threshold)
    similarity := sim
    result := if sim ≥ threshold then 1 else 0 }

/-- One step of collecting dict keys in first-occurrence order. -/
def keyStep (acc : List String) (k : String) : List String :=
  if acc.any (fun s => s = k) then acc else acc ++ [k]

/-- The list of names with duplicates removed, keeping first occurrences
in order — the key order an insertion-ordered Python dict ends up with. -/
def firstDedup (l : List String) : List String :=
  l.foldl keyStep []

/-- A concrete per-modality prediction used as input by the witnesses:
identity "diptayan" with full confidence. -/
def dipOne : PredictResult :=
  { verified := true, person := "diptayan", confidence := 1, similarities := [] }

/-! ## Helper lemmas -/

theorem any_map_fst (d : List (String × ℚ)) (k : String) :
    (d.map Prod.fst).any (fun s => s = k) = d.any (fun p => p.1 = k) := by
  induction d with
  | nil => rfl
  | cons p rest ih => simp [ih]

theorem dictSet_keys (d : List (String × ℚ)) (k : String) (v : ℚ) :
    (dictSet d k v).map Prod.fst = keyStep (d.map Prod.fst) k := by
  unfold dictSet keyStep
  rw [any_map_fst]
  by_cases h : d.any (fun p => p.1 = k) = true
  · rw [if_pos h, if_pos h, List.map_map]
    apply List.map_congr_left
    intro p _
    by_cases hp : p.1 = k
    · simp [hp]
    · simp [hp]
  · rw [if_neg h, if_neg h]
    simp

theorem scores_foldl_keys (simf : List ℚ → List ℚ → ℚ) (test : List ℚ) :
    ∀ (refs : List (String × List ℚ)) (d : List (String × ℚ)),
      (refs.foldl (fun sc p => dictSet sc (pyLower p.1) (simf test p.2)) d).map Prod.fst
        = refs.foldl (fun acc p => keyStep acc (pyLower p.1)) (d.map Prod.fst)
  | [], _ => rfl
  | p :: rest, d => by
    rw [List.foldl_cons, List.foldl_cons,
      scores_foldl_keys simf test rest (dictSet d (pyLower p.1) (simf test p.2)),
      dictSet_keys]

theorem maxStep_left_le (b q : String × ℚ) : b.2 ≤ (maxStep b q).2 := by
  by_cases h : q.2 > b.2
  · simp only [maxStep, if_pos h]
    exact le_of_lt h
  · simp only [maxStep, if_neg h]
    exact le_refl _

theorem maxStep_right_le (b q : String × ℚ) : q.2 ≤ (maxStep b q).2 := by
  by_cases h : q.2 > b.2
  · simp only [maxStep, if_pos h]
    exact le_refl _
  · simp only [maxStep, if_neg h]
    exact le_of_not_lt h

theorem maxStep_cases (b q : String × ℚ) : maxStep b q = b ∨ maxStep b q = q := by
  by_cases h : q.2 > b.2
  · exact Or.inr (by simp only [maxStep, if_pos h])
  · exact Or.inl (by simp only [maxStep, if_neg h])

theorem foldl_maxStep_spec : ∀ (l : List (String × ℚ)) (b : String × ℚ),
    (l.foldl maxStep b = b ∨ l.foldl maxStep b ∈ l)
      ∧ b.2 ≤ (l.foldl maxStep b).2
      ∧ ∀ q ∈ l, q.2 ≤ (l.foldl maxStep b).2
  | [], b => ⟨Or.inl rfl, le_refl _, by simp⟩
  | q :: rest, b => by
    have ih := foldl_maxStep_spec rest (maxStep b q)
    rw [List.foldl_cons]
    refine ⟨?_, ?_, ?_⟩
    · rcases ih.1 with h | h
      · rcases maxStep_cases b q with h2 | h2
        · exact Or.inl (h.trans h2)
        · exact Or.inr (by rw [h, h2]; exact List.mem_cons_self q rest)
      · exact Or.inr (List.mem_cons_of_mem q h)
    · exact le_trans (maxStep_left_le b q) ih.2.1
    · intro z hz
      rcases List.mem_cons.mp hz with rfl | hz2
      · exact le_trans (maxStep_right_le b z) ih.2.1
      · exact ih.2.2 z hz2

theorem foldl_maxStep_keeps_first : ∀ (l : List (String × ℚ)) (b : String × ℚ),
    (∀ q ∈ l, q.2 ≤ b.2) → l.foldl maxStep b = b
  | [], _, _ => rfl
  | q :: rest, b, h => by
    rw [List.foldl_cons]
    have hq : ¬q.2 > b.2 := not_lt.mpr (h q (List.mem_cons_self q rest))
    rw [show maxStep b q = b from by simp only [maxStep, if_neg hq]]
    exact foldl_maxStep_keeps_first rest b (fun z hz => h z (List.mem_cons_of_mem q hz))

/-! ## Claims -/

/-- C1: In the strict (non-bypass, `higher = False`) path of
`verify_biometric`, the fused `authenticated` flag equals
"face passed its threshold AND voice passed its threshold AND the two
best identities agree", the `name` field of the response is the matched
identity exactly when `authenticated` is true and is absent (`None`)
otherwise, and whenever `authenticated` holds the two identities agree. -/
theorem strictmode_fusion (f v : PredictResult) :
    ((verify_biometric_fuse f v false).authenticated
        = (decide (f.confidence ≥ MULTIMODAL_THRESHOLD.face)
            && (decide (v.confidence ≥ MULTIMODAL_THRESHOLD.voice)
            && decide (f.person = v.person))))
    ∧ ((verify_biometric_fuse f v false).name
        = if (verify_biometric_fuse f v false).authenticated then some f.person else none)
    ∧ ((verify_biometric_fuse f v false).authenticated = true → f.person = v.person) := by
  by_cases hf : f.confidence ≥ MULTIMODAL_THRESHOLD.face <;>
    by_cases hv : v.confidence ≥ MULTIMODAL_THRESHOLD.voice <;>
      by_cases hp : f.person = v.person <;>
        simp [verify_biometric_fuse, hf, hv, hp]

/-- C1 witness: the theorem applied at a concrete input, discharging its
inner hypothesis — matching identities with confidence 1 pass both
thresholds, so the strict fusion authenticates. -/
theorem strictmode_fusion_witness :
    (verify_biometric_fuse dipOne dipOne false).authenticated = true
    ∧ dipOne.person = dipOne.person := by
  have hauth : (verify_biometric_fuse dipOne dipOne false).authenticated = true := by
    rw [(strictmode_fusion dipOne dipOne).1]
    norm_num [dipOne, MULTIMODAL_THRESHOLD, FACE_THRESHOLD, VOICE_THRESHOLD]
  exact ⟨hauth, (strictmode_fusion dipOne dipOne).2.2 hauth⟩

/-- C2: In the bypass (`higher = True`) path of `verify_biometric`, the
voice pass flag is forced true regardless of the voice confidence, so
`authenticated` reduces to "face passed its threshold AND the two best
identities agree", and the fused verdict is independent of the voice
confidence value. -/
theorem bypass_fusion (f v : PredictResult) :
    ((verify_biometric_fuse f v true).authenticated
        = (decide (f.confidence ≥ MULTIMODAL_THRESHOLD.face)
            && decide (f.person = v.person)))
    ∧ ∀ c : ℚ, (verify_biometric_fuse f { v with confidence := c } true).authenticated
        = (verify_biometric_fuse f v true).authenticated := by
  constructor
  · by_cases hf : f.confidence ≥ MULTIMODAL_THRESHOLD.face <;>
      by_cases hp : f.person = v.person <;>
        simp [verify_biometric_fuse, hf, hp]
  · intro c
    by_cases hf : f.confidence ≥ MULTIMODAL_THRESHOLD.face <;>
      by_cases hp : f.person = v.person <;>
        simp [verify_biometric_fuse, hf, hp]

/-- C2 witness: the theorem applied at a concrete input — the spec's own
scenario: voice confidence 0 is far below the voice threshold, yet with
matching identities and a passing face the bypass mode authenticates. -/
theorem bypass_fusion_witness :
    (verify_biometric_fuse dipOne { dipOne with confidence := 0 } true).authenticated
      = true := by
  rw [(bypass_fusion dipOne { dipOne with confidence := 0 }).1]
  norm_num [dipOne, MULTIMODAL_THRESHOLD, FACE_THRESHOLD]

/-- C3 counterexample: the claim says every bypassed-mode response carries
a visible `voice_threshold_bypassed` marker distinguishing it from
non-bypassed responses.  False: the response record of `verify_biometric`
has exactly the fields image results / audio results / authenticated /
name, and on this concrete input the bypass-mode response is identical to
the strict-mode response — nothing in the output records the bypass. -/
theorem bypass_unflagged_cex :
    verify_biometric_fuse
        { verified := true, person := "diptayan", confidence := 4/5,
          similarities := [("diptayan", 4/5), ("palash", 1/5)] }
        { verified := true, person := "diptayan", confidence := 1/2,
          similarities := [("diptayan", 1/2), ("palash", 1/10)] } true
      = verify_biometric_fuse
        { verified := true, person := "diptayan", confidence := 4/5,
          similarities := [("diptayan", 4/5), ("palash", 1/5)] }
        { verified := true, person := "diptayan", confidence := 1/2,
          similarities := [("diptayan", 1/2), ("palash", 1/10)] } false := by
  norm_num [verify_biometric_fuse, MULTIMODAL_THRESHOLD, FACE_THRESHOLD, VOICE_THRESHOLD]

/-- C3 amended: the `verify_biometric` response carries no bypass marker at
all — its only fields are the two sorted similarity breakdowns,
`authenticated` and `name` — and whenever the voice confidence meets the
voice threshold the bypass-mode response is identical, field for field, to
the strict-mode response.  The bypass is recorded only in a server-side
`print`, never in the serialized output. -/
theorem bypass_unflagged (f v : PredictResult)
    (h : v.confidence ≥ MULTIMODAL_THRESHOLD.voice) :
    verify_biometric_fuse f v true = verify_biometric_fuse f v false := by
  simp [verify_biometric_fuse, h]

/-- C3 witness: the amended statement applied at a concrete input. -/
theorem bypass_unflagged_witness :
    verify_biometric_fuse
        { verified := true, person := "palash", confidence := 7/10,
          similarities := [("palash", 7/10)] }
        { verified := true, person := "palash", confidence := 3/100,
          similarities := [("palash", 3/100)] } true
      = verify_biometric_fuse
        { verified := true, person := "palash", confidence := 7/10,
          similarities := [("palash", 7/10)] }
        { verified := true, person := "palash", confidence := 3/100,
          similarities := [("palash", 3/100)] } false :=
  bypass_unflagged _ _ (by norm_num [MULTIMODAL_THRESHOLD, VOICE_THRESHOLD])

/-- C4 counterexample: the claim says a zero-norm input makes the
similarity scorer return a `DegenerateEmbedding` structured error and
never a NaN.  False: on the zero query vector the code performs the
division anyway and the scorer returns an ordinary (non-error) result
whose value is the non-finite IEEE quotient 0/0, i.e. NaN — no
`DegenerateEmbedding` error exists anywhere in the code. -/
theorem zero_norm_nan_cex :
    cosine_similarity [0, 0] [1, 0] = .ok .nonfinite := by
  norm_num [cosine_similarity, normSq, dot, List.zipWith]

/-- C4 amended: whenever either vector has exactly zero norm (and the
dimensions match, so `np.dot` does not raise first), `cosine_similarity`
returns the non-finite IEEE quotient — NaN, since a zero norm forces the
dot product to zero as well — rather than any structured error. -/
theorem zero_norm_nonfinite (a b : List ℚ) (hlen : a.length = b.length)
    (h : normSq a = 0 ∨ normSq b = 0) :
    cosine_similarity a b = .ok .nonfinite := by
  have hz : normSq a * normSq b = 0 := by
    rcases h with h | h <;> simp [h]
  simp only [cosine_similarity, if_pos hlen, if_pos hz]

/-- C4 witness: the amended statement applied at a concrete input. -/
theorem zero_norm_nonfinite_witness :
    cosine_similarity [0, 0, 0] [2, 3, 4] = .ok .nonfinite :=
  zero_norm_nonfinite [0, 0, 0] [2, 3, 4] rfl
    (Or.inl (by norm_num [normSq, dot, List.zipWith]))

/-- C5 counterexample: the claim says an empty reference set makes the
verifier yield an `EmptyReferenceSet` structured error and never crash
with an unstructured exception.  False: with no enrolled identities the
similarity dict is empty, so `max(scores, key=scores.get)` raises a bare
`ValueError` — an unstructured builtin exception (it propagates out of
`predict_voice`; `src/server/app.py` does not catch it) — and no
`EmptyReferenceSet` error exists anywhere in the code. -/
theorem empty_refs_cex :
    predict_voice (fun _ _ => 0) [0] [] false = .error .valueError := rfl

/-- C5 amended: for every query and both modes, calling `predict_voice`
with an empty reference set raises Python's `ValueError` (from `max` on an
empty sequence): it never returns a verdict — in particular never a
vacuous pass or a confidence-0 verdict — but the failure is an
unstructured builtin exception, not an `EmptyReferenceSet` error. -/
theorem empty_refs_raises (simf : List ℚ → List ℚ → ℚ) (test : List ℚ)
    (higher : Bool) :
    predict_voice simf test [] higher = .error .valueError := rfl

/-- C6 counterexample: the claim says ties for the maximal similarity are
broken by a fixed documented order such as lexicographic, not by insertion
order.  False: the same two tied reference entries produce best identity
"b" when enrolled in the order b, a and best identity "a" when enrolled in
the order a, b — `max(scores, key=scores.get)` keeps the first maximal key
in dict insertion order, so the winner depends on insertion order
(a lexicographic rule would answer "a" both times). -/
theorem tie_insertion_order_cex :
    ((predict_voice (fun _ _ => 1) [0] [("b", [0]), ("a", [0])] false).map
        (fun r => r.person) = .ok "b")
    ∧ ((predict_voice (fun _ _ => 1) [0] [("a", [0]), ("b", [0])] false).map
        (fun r => r.person) = .ok "a") := by
  constructor <;> decide

/-- C6 amended: `best = max(scores, key=scores.get)` always returns a key
of the similarity map holding the maximal value, and ties are broken by
the first-encountered key in the map's insertion (iteration) order — the
earliest key attaining the maximum wins, not a lexicographic rule. -/
theorem best_identity_first_max :
    (∀ (p : String × ℚ) (l : List (String × ℚ)),
        (∀ q ∈ l, q.2 ≤ p.2) → pyMaxKey (p :: l) = .ok p.1)
    ∧ ∀ (l : List (String × ℚ)), l ≠ [] →
        ∃ kv, kv ∈ l ∧ pyMaxKey l = .ok kv.1 ∧ ∀ q ∈ l, q.2 ≤ kv.2 := by
  constructor
  · intro p l h
    show Except.ok (List.foldl maxStep p l).1 = Except.ok p.1
    rw [foldl_maxStep_keeps_first l p h]
  · intro l hl
    cases l with
    | nil => exact absurd rfl hl
    | cons p rest =>
      obtain ⟨hmem, hb, hall⟩ := foldl_maxStep_spec rest p
      refine ⟨rest.foldl maxStep p, ?_, rfl, ?_⟩
      · rcases hmem with h | h
        · rw [h]
          exact List.mem_cons_self p rest
        · exact List.mem_cons_of_mem p h
      · intro q hq
        rcases List.mem_cons.mp hq with rfl | hq2
        · exact hb
        · exact hall q hq2

/-- C6 witness: the amended statement applied at a concrete input with a
tie — the first-encountered maximal key wins. -/
theorem best_identity_first_max_witness :
    pyMaxKey [("a", (1 : ℚ)), ("b", 1)] = .ok "a" :=
  best_identity_first_max.1 ("a", 1) [("b", 1)] (by
    intro q hq
    rw [List.mem_singleton] at hq
    rw [hq])

/-- C7 counterexample: the claim says a dimensionality mismatch yields a
`DimensionMismatch` structured error, reported outward and never a crash.
False: `np.dot` raises a bare `ValueError` — in the `src/server/app.py`
request path nothing catches it, so the request crashes with an unhandled
exception — and no `DimensionMismatch` error exists anywhere in the code. -/
theorem dim_mismatch_cex :
    cosine_similarity [1] [1, 2] = .error .valueError := rfl

/-- C7 amended: whenever the query and a reference embedding differ in
dimensionality, the cosine scorer raises Python's `ValueError` (from
`np.dot` on misaligned 1-D shapes); the mismatch is never silently coerced
into a similarity score, but the failure is an unstructured builtin
exception, not a `DimensionMismatch` structured result. -/
theorem dim_mismatch_raises (a b : List ℚ) (h : a.length ≠ b.length) :
    cosine_similarity a b = .error .valueError := by
  simp only [cosine_similarity, if_neg h]

/-- C7 witness: the amended statement applied at a concrete input. -/
theorem dim_mismatch_raises_witness :
    cosine_similarity [1, 2, 3] [1] = .error .valueError :=
  dim_mismatch_raises [1, 2, 3] [1] (by decide)

/-- C8: every pass/fail decision in the code compares
`confidence >= threshold` with an inclusive boundary: the
`FaceAuthService.verify_user` decision, the `/verify-face` endpoint and
the `/verify-voice` endpoint all pass exactly when the confidence is
greater than or equal to the threshold, and a confidence exactly equal to
the threshold passes. -/
theorem threshold_inclusive :
    (∀ sim t : ℚ, ((FaceAuthService.verify_user sim t).authenticated = true) ↔ sim ≥ t)
    ∧ (∀ c : ℚ, (verify_face_verified c = true) ↔ c ≥ FACE_THRESHOLD)
    ∧ (∀ c : ℚ, (verify_voice_verified c = true) ↔ c ≥ VOICE_THRESHOLD)
    ∧ (∀ t : ℚ, (FaceAuthService.verify_user t t).authenticated = true)
    ∧ (∀ t : ℚ, (verify_biometric_fuse
        { verified := true, person := "palash", confidence := t, similarities := [] }
        { verified := true, person := "palash", confidence := t, similarities := [] }
        false).authenticated = true
          ↔ (t ≥ MULTIMODAL_THRESHOLD.face ∧ t ≥ MULTIMODAL_THRESHOLD.voice)) := by
  refine ⟨fun sim t => ?_, fun c => ?_, fun c => ?_, fun t => ?_, fun t => ?_⟩
  · simp [FaceAuthService.verify_user]
  · simp [verify_face_verified]
  · simp [verify_voice_verified]
  · simp [FaceAuthService.verify_user]
  · by_cases hf : t ≥ MULTIMODAL_THRESHOLD.face <;>
      by_cases hv : t ≥ MULTIMODAL_THRESHOLD.voice <;>
        simp [verify_biometric_fuse, hf, hv]

/-- C8 witness: the theorem applied at a concrete input — the inclusive
boundary case, a similarity exactly equal to the threshold passes. -/
theorem threshold_inclusive_witness :
    (FaceAuthService.verify_user VOICE_THRESHOLD VOICE_THRESHOLD).authenticated
      = true :=
  threshold_inclusive.2.2.2.1 VOICE_THRESHOLD

/-- C9 counterexample: the claim says the similarity map's key set is
always exactly the reference set's key set, with no extra keys and no two
enrolled identities collapsing into one key.  False: `predict_voice`
lowercases every name (`key = str(name).lower()`), so the reference name
"Alice" yields the key "alice" (which is not a reference key, while
"Alice" receives no score), and the two distinct enrolled names "A" and
"a" collapse into the single key "a", whose score is the later entry's,
overwriting the earlier one. -/
theorem scores_keys_lowercase_cex :
    ((predict_voice_scores (fun _ _ => 0) [0] [("Alice", [0])]).map Prod.fst
        = ["alice"])
    ∧ ("alice" ≠ "Alice")
    ∧ (predict_voice_scores (fun _ r => r.headD 0) [0] [("A", [1]), ("a", [2])]
        = [("a", 2)]) := by
  refine ⟨by decide, by decide, by decide⟩

/-- C9 amended: the similarity map's keys are exactly the lowercased
reference names, in first-occurrence order — every enrolled identity is
scored under its lowercased name, names that agree after lowercasing
collapse into one key, and for an already-lowercase, duplicate-free
roster this coincides with the reference key set.  The face similarities
always carry exactly the fixed roster keys "diptayan" and "palash". -/
theorem scores_keys_lowercase :
    (∀ (simf : List ℚ → List ℚ → ℚ) (test : List ℚ) (refs : List (String × List ℚ)),
        (predict_voice_scores simf test refs).map Prod.fst
          = firstDedup (refs.map (fun p => pyLower p.1)))
    ∧ ∀ p0 p1 : ℚ, (predict_face p0 p1).similarities.map Prod.fst
        = ["diptayan", "palash"] := by
  constructor
  · intro simf test refs
    unfold predict_voice_scores firstDedup
    rw [scores_foldl_keys, List.foldl_map]
    rfl
  · intro p0 p1
    rfl

/-- C10: `predict_voice` sets the `verified` field of its result to `True`
unconditionally — the source line is literally `True if higher else True` —
for both values of the `higher` flag and regardless of the threshold or
the computed confidence; the per-modality voice pass/fail decision is
therefore made only by callers re-comparing the returned confidence
against a threshold (as `/verify-voice` does at `app.py` line 115). -/
theorem predict_voice_always_verified (simf : List ℚ → List ℚ → ℚ)
    (test : List ℚ) (refs : List (String × List ℚ)) (higher : Bool) :
    (predict_voice simf test refs higher).map (fun r => r.verified)
      = (predict_voice simf test refs higher).map (fun _ => true) := by
  unfold predict_voice
  cases pyMaxKey (predict_voice_scores simf test refs) with
  | error e => rfl
  | ok best => cases higher <;> rfl

end Biometrics
